import Mathlib

/-! Shallow embedding of `src/run_bur_job.py` (BUR Piemonte monitor).

The script polls a bulletin landing page, extracts the current issue
number by regex, and — when the number differs from the persisted one —
probes a fixed list of sub-pages, renders each reachable one to PDF,
optionally uploads to Drive, optionally emails the PDFs, and finally
persists the new number.

Pure computations (`parse_bur_number`, `url_for`, `url_exists`,
`load_state`, `upload_to_drive`) are embedded as Lean functions.  The
effectful `main` is embedded as a function from an environment (the
oracle outcomes of every external call: the landing-page GET, each
sub-page GET, each PDF render, the Drive client, each upload, plus the
flags and the state-file content) to a result, an effect trace, and the
final state-file content.
-/

namespace BUR

/-! Python regex primitives, specialised to the two patterns:

`re.search` with patterns
  primary : `Bollettino\s+Ufficiale\s+n\.\s*(\d+)\s+del\s+(.+?20\d\x7b2\x7d)`
  fallback: `Bollettino\s*n[°o]\s*(\d+)\s*del\s+(.+?20\d\x7b2\x7d)`
both with `re.IGNORECASE`.  We model `\s` and `\d` over their ASCII
ranges (the Unicode extension of Python is irrelevant to the inputs in
scope) and case folding by `Char.toLower`. -/

/-- Python regex `\s` (ASCII range). -/
def isPySpace (c : Char) : Bool :=
  c = ' ' || c = '\t' || c = '\n' || c = '\r' || c = '\x0b' || c = '\x0c'

/-- Python regex `\d` (ASCII range). -/
def isPyDigit (c : Char) : Bool :=
  '0' ≤ c && c ≤ '9'

/-- Consume a literal, case-insensitively (`re.IGNORECASE`); returns the rest. -/
def dropLitCI : List Char → List Char → Option (List Char)
  | [], cs => some cs
  | _ :: _, [] => none
  | l :: ls, c :: cs => if c.toLower = l.toLower then dropLitCI ls cs else none

/-- Munch `\s+` when directly followed by a non-space token: the greedy
maximal munch is the only viable length, so no backtracking is needed. -/
def dropSpaces1 (cs : List Char) : Option (List Char) :=
  match cs with
  | c :: rest => if isPySpace c then some (rest.dropWhile isPySpace) else none
  | [] => none

/-- Munch `(\d+)` when directly followed by a non-digit token: greedy
maximal munch. -/
def digits1 (cs : List Char) : Option (List Char × List Char) :=
  let ds := cs.takeWhile isPyDigit
  if ds.isEmpty then none else some (ds, cs.dropWhile isPyDigit)

/-- The literal-digit tail `20\d\x7b2\x7d`: four chars `2`, `0`, digit, digit. -/
def check20 : List Char → Option (List Char)
  | '2' :: '0' :: a :: b :: _ =>
      if isPyDigit a && isPyDigit b then some ['2', '0', a, b] else none
  | _ => none

/-- The lazy group `(.+?20\d\x7b2\x7d)` anchored at the current position:
`.` consumes any char except a newline, one at a time (lazy), and after
each consumed char the tail `20\d\x7b2\x7d` is tried first.  Returns the
whole group (consumed chars plus the four-digit tail). -/
def lazyTail : List Char → Option (List Char)
  | [] => none
  | c :: rest =>
      if c = '\n' then none
      else
        match check20 rest with
        | some g => some (c :: g)
        | none =>
            match lazyTail rest with
            | some g => some (c :: g)
            | none => none

/-- Greedy backtracking of `\s+` against the following lazy group: try the
maximal whitespace munch first, then give back one space at a time
(the backtracking order of Python). `n` is the number of chars `\s+` consumes. -/
def wsLazyLoop : Nat → List Char → Option (List Char)
  | 0, _ => none
  | n + 1, cs =>
      match lazyTail (cs.drop (n + 1)) with
      | some g => some g
      | none => wsLazyLoop n cs

/-- Match `\s+(.+?20\d\x7b2\x7d)`: at least one whitespace char, then the
lazy group. -/
def wsPlusThenLazy (cs : List Char) : Option (List Char) :=
  wsLazyLoop (cs.takeWhile isPySpace).length cs

/-- Match the primary pattern anchored at the head of `cs`; on success,
return the two capture groups (digits of group 1, raw group 2).
Every greedy piece here is followed by a token its class cannot match,
so maximal munch is exact — except the final `\s+`, which backtracks
against the lazy group via `wsPlusThenLazy`. -/
def matchPrimAt (cs : List Char) : Option (List Char × List Char) := do
  let cs ← dropLitCI "Bollettino".toList cs
  let cs ← dropSpaces1 cs
  let cs ← dropLitCI "Ufficiale".toList cs
  let cs ← dropSpaces1 cs
  let cs ← dropLitCI "n.".toList cs
  let cs := cs.dropWhile isPySpace
  let (ds, cs) ← digits1 cs
  let cs ← dropSpaces1 cs
  let cs ← dropLitCI "del".toList cs
  let g2 ← wsPlusThenLazy cs
  return (ds, g2)

/-- Match the fallback pattern `Bollettino\s*n[°o]\s*(\d+)\s*del\s+(.+?20\d\x7b2\x7d)`
anchored at the head of `cs`. -/
def matchFallAt (cs : List Char) : Option (List Char × List Char) := do
  let cs ← dropLitCI "Bollettino".toList cs
  let cs := cs.dropWhile isPySpace
  let cs ← dropLitCI "n".toList cs
  let cs ← (match cs with
            | c :: rest => if c = '°' || c.toLower = 'o' then some rest else none
            | [] => none)
  let cs := cs.dropWhile isPySpace
  let (ds, cs) ← digits1 cs
  let cs := cs.dropWhile isPySpace
  let cs ← dropLitCI "del".toList cs
  let g2 ← wsPlusThenLazy cs
  return (ds, g2)

/-- Model of `re.search`: try the anchored match at each position,
leftmost first. -/
def searchFrom {α : Type} (m : List Char → Option α) : List Char → Option α
  | [] => m []
  | c :: rest =>
      match m (c :: rest) with
      | some r => some r
      | none => searchFrom m rest

/-- Python `int` on a digit string. -/
def digitsToNat (ds : List Char) : Nat :=
  ds.foldl (fun a c => a * 10 + (c.toNat - '0'.toNat)) 0

/-- Python `str.strip()` (ASCII whitespace). -/
def stripChars (cs : List Char) : List Char :=
  ((cs.dropWhile isPySpace).reverse.dropWhile isPySpace).reverse

/-- Embeds `parse_bur_number` (src/run_bur_job.py:57-65): search the primary
pattern, fall back to the alternate pattern, and on a match return
`(int(group 1), group 2 stripped)`.  `none` models the raised
`RuntimeError("Impossibile estrarre il numero BUR.")`. -/
def parse_bur_number (html : String) : Option (Int × String) :=
  match searchFrom matchPrimAt html.toList with
  | some (ds, g2) => some ((digitsToNat ds : Int), (stripChars g2).asString)
  | none =>
      match searchFrom matchFallAt html.toList with
      | some (ds, g2) => some ((digitsToNat ds : Int), (stripChars g2).asString)
      | none => none

example : parse_bur_number "Bollettino Ufficiale n. 35 del 28 agosto 2025" =
    some (35, "28 agosto 2025") := by decide

example : parse_bur_number "Bollettino n° 35 del 28 agosto 2025" =
    some (35, "28 agosto 2025") := by decide

example : parse_bur_number "nothing here" = none := by decide

/-! Configuration, state, environment. -/

/-- The persisted JSON state (src/run_bur_job.py:232-239): two keys. -/
structure StateJ where
  last_number : Option Int
  year : Int
deriving DecidableEq

/-- The state file as found on disk: absent (`FileNotFoundError`), present
but unreadable as JSON (any other exception of `json.load`), or a parsed
state object. -/
inductive FileRead
  | missing
  | malformed
  | content (st : StateJ)
deriving DecidableEq

/-- The environment variables read at module load (src/run_bur_job.py:19-42). -/
structure Config where
  YEAR : Int
  ENABLE_DRIVE : Bool
  DRIVE_FOLDER_ID : String
  SERVICE_ACCOUNT_JSON : String
  SEND_EMAIL : Bool
  SMTP_USER : String
  SMTP_PASS : String
  MAIL_TO : List String

/-- The constant `BASE` (src/run_bur_job.py:20). -/
def BASE (cfg : Config) : String :=
  "https://www.regione.piemonte.it/governo/bollettino/abbonati/" ++ toString cfg.YEAR

/-- The constant `CORRENTE_SISTE` (src/run_bur_job.py:21). -/
def CORRENTE_SISTE (cfg : Config) : String :=
  BASE cfg ++ "/corrente/siste/index.htm"

/-- The constant `PAGES` (src/run_bur_job.py:23). -/
def PAGES : List String := ["siste", "suppo1", "suppo2", "suppo3"]

/-- Embeds `url_for` (src/run_bur_job.py:73-74). -/
def url_for (cfg : Config) (issue : Int) (page : String) : String :=
  BASE cfg ++ "/" ++ toString issue ++ "/" ++ page ++ "/index.htm"

/-- The `out_name` built in the loop (src/run_bur_job.py:274). -/
def outName (cfg : Config) (issue : Int) (page : String) : String :=
  "BUR_" ++ toString cfg.YEAR ++ "_" ++ toString issue ++ "_" ++ page ++ ".pdf"

/-- The `out_path = os.path.join(".", out_name)` (src/run_bur_job.py:275). -/
def outPath (cfg : Config) (issue : Int) (page : String) : String :=
  "./" ++ outName cfg issue page

/-- Embeds `load_state` (src/run_bur_job.py:232-236): only `FileNotFoundError` is
caught and replaced by the default state; any other failure propagates. -/
def load_state (f : FileRead) (year : Int) : Except Unit StateJ :=
  match f with
  | .missing => .ok ⟨none, year⟩
  | .malformed => .error ()
  | .content st => .ok st

/-- Embeds `url_exists` (src/run_bur_job.py:76-83) applied to the outcome of the
GET: a status code in `[200, 400)` is "exists"; an exception is caught
and yields `false`. -/
def url_exists (resp : Except Unit Int) : Bool :=
  match resp with
  | .ok code => decide (200 ≤ code) && decide (code < 400)
  | .error _ => false

/-- The quota marker searched in the exception text (src/run_bur_job.py:196). -/
def quotaMsg : String := "Service Accounts do not have storage quota"

/-- List-of-chars prefix test (helper for the substring test below). -/
def startsWithChars : List Char → List Char → Bool
  | [], _ => true
  | _ :: _, [] => false
  | a :: as, b :: bs => a = b && startsWithChars as bs

/-- Python `needle in haystack` on strings, as lists of chars. -/
def containsSub (needle hay : List Char) : Bool :=
  match hay with
  | [] => startsWithChars needle []
  | _ :: rest => startsWithChars needle hay || containsSub needle rest

/-- Outcome of the Drive `files().create().execute()` call. -/
inductive UploadRes
  | ok (meta : String)
  | exc (msg : String)

/-- Embeds `upload_to_drive` (src/run_bur_job.py:175-200): a successful call
returns the metadata; any exception is caught, and whether or not its
text names the service-account quota, `None` is returned (the two
branches differ only in the log line). -/
def upload_to_drive (res : UploadRes) : Option String :=
  match res with
  | .ok meta => some meta
  | .exc msg =>
      if containsSub quotaMsg.toList msg.toList then
        none
      else
        none

/-- The guard `SEND_EMAIL and SMTP_USER and SMTP_PASS and MAIL_TO`
inside `send_smtp` (src/run_bur_job.py:204). -/
def smtpConfigured (cfg : Config) : Bool :=
  cfg.SEND_EMAIL && !(cfg.SMTP_USER == "") && !(cfg.SMTP_PASS == "")
    && !cfg.MAIL_TO.isEmpty

/-- The guard `ENABLE_DRIVE and DRIVE_FOLDER_ID and SERVICE_ACCOUNT_JSON`
(src/run_bur_job.py:281). -/
def driveEnabled (cfg : Config) : Bool :=
  cfg.ENABLE_DRIVE && !(cfg.DRIVE_FOLDER_ID == "") && !(cfg.SERVICE_ACCOUNT_JSON == "")

/-- Oracle outcomes of every external interaction of one run, plus the
flags read from the environment. -/
structure Env where
  force_run : Bool
  force_send : Bool
  in_window : Bool
  file : FileRead
  /-- the landing-page GET: `error` models a raised request/HTTP error. -/
  fetchHtml : Except Unit String
  /-- per-URL sub-page GET for `url_exists`: status code or exception. -/
  probe : String → Except Unit Int
  /-- per-URL `render_pdf_offline` outcome. -/
  render : String → Except Unit Unit
  /-- Outcome of the `drive_client()` construction. -/
  driveClient : Except Unit Unit
  /-- Result of `drive_check_folder` (it catches its own exceptions). -/
  driveFolderOk : Bool
  /-- per-file-name Drive create-call outcome. -/
  upload : String → UploadRes

/-- Externally visible effects of a run, in order. -/
inductive Eff
  | fetchLanding
  | probe (url : String)
  | render (url : String) (out : String)
  | driveClientInit
  | driveFolderCheck
  | uploadAttempt (name : String)
  | smtpCall (files : List String)
  | emailSend (files : List String)
  | stateWrite (st : StateJ)
deriving DecidableEq

/-- Accumulator of the per-page loop (src/run_bur_job.py:268-302):
`files_local`, `uploaded`, the memoised `main._drive` attribute
(`none` = unset, `some true` = working client, `some false` = disabled),
and the effect trace so far. -/
structure LoopSt where
  files_local : List String
  uploaded : List String
  driveMemo : Option Bool
  effs : List Eff

/-- The Drive block of one loop iteration (src/run_bur_job.py:281-296).
If the client was never initialised, build it (a construction exception
is caught by the inner `except` and leaves the memo unset); check the
folder once and memoise the verdict; with a working client, attempt the
upload and collect returned metadata. -/
def drivePhase (cfg : Config) (env : Env) (out_name : String) (acc : LoopSt) : LoopSt :=
  if driveEnabled cfg then
    match acc.driveMemo with
    | some true =>
        let effs := acc.effs ++ [Eff.uploadAttempt out_name]
        match upload_to_drive (env.upload out_name) with
        | some meta => { acc with effs := effs, uploaded := acc.uploaded ++ [meta] }
        | none => { acc with effs := effs }
    | some false => acc
    | none =>
        let effs := acc.effs ++ [Eff.driveClientInit]
        match env.driveClient with
        | .error _ => { acc with effs := effs }
        | .ok _ =>
            let effs := effs ++ [Eff.driveFolderCheck]
            if env.driveFolderOk then
              let effs := effs ++ [Eff.uploadAttempt out_name]
              match upload_to_drive (env.upload out_name) with
              | some meta =>
                  { acc with effs := effs, uploaded := acc.uploaded ++ [meta],
                             driveMemo := some true }
              | none => { acc with effs := effs, driveMemo := some true }
            else
              { acc with effs := effs, driveMemo := some false }
  else acc

/-- One iteration of the per-page loop (src/run_bur_job.py:271-302):
probe the sub-page URL; when reachable, attempt the render (an exception
skips the rest of the body), record the local PDF, then run the Drive
block. -/
def processPage (cfg : Config) (env : Env) (cur_num : Int) (acc : LoopSt)
    (page : String) : LoopSt :=
  let u := url_for cfg cur_num page
  let acc1 := { acc with effs := acc.effs ++ [Eff.probe u] }
  if url_exists (env.probe u) then
    let out_name := outName cfg cur_num page
    let out_path := outPath cfg cur_num page
    match env.render u with
    | .error _ => { acc1 with effs := acc1.effs ++ [Eff.render u out_path] }
    | .ok _ =>
        let acc2 := { acc1 with effs := acc1.effs ++ [Eff.render u out_path],
                                files_local := acc1.files_local ++ [out_path] }
        drivePhase cfg env out_name acc2
  else acc1

/-- The whole per-page loop, started right after the landing fetch. -/
def runLoop (cfg : Config) (env : Env) (cur_num : Int) : LoopSt :=
  PAGES.foldl (processPage cfg env cur_num) ⟨[], [], none, [Eff.fetchLanding]⟩

/-- The current `(cur_num, cur_date)` (src/run_bur_job.py:253-259): the
fetched-and-parsed pair when both succeed, otherwise the fallback
`(st.get("last_number") or 0, "")`.  For an `int` value `n`, the Python
expression `n or 0` is `0` when `n == 0` and `n` otherwise. -/
def currentPair (st : StateJ) (env : Env) : Int × String :=
  match (match env.fetchHtml with
         | .error _ => none
         | .ok html => parse_bur_number html) with
  | some nd => nd
  | none =>
      ((match st.last_number with
        | some n => if n = 0 then 0 else n
        | none => 0), "")

/-- The computed current issue number of a run. -/
def currentNum (st : StateJ) (env : Env) : Int :=
  (currentPair st env).1

/-- Embeds `send_smtp` (src/run_bur_job.py:203-229): when any of the SMTP
settings is missing the function returns without sending; otherwise one
authenticated send is attempted (a raise there is caught by the caller
and changes nothing else observable). -/
def send_smtp (cfg : Config) (files : List String) : List Eff :=
  if smtpConfigured cfg then [Eff.emailSend files] else []

/-- Result of one run of `main`. -/
structure RunOut where
  result : Except Unit Unit
  trace : List Eff
  file : FileRead

/-- Embeds `main` (src/run_bur_job.py:242-322).  In order: the time-window gate;
`load_state` (whose non-`FileNotFoundError` failures propagate);
the landing fetch-and-parse with fallback on any exception;
the `new_issue` test (`cur_num` is an `int` in every branch, so the
`cur_num is not None` conjunct always holds); the early return when
there is nothing new and no forced send; the per-page loop; the email
block (entered only when some PDF exists); and the state write, done
exactly when `new_issue`. -/
def main (cfg : Config) (env : Env) : RunOut :=
  if !env.in_window && !env.force_run then ⟨.ok (), [], env.file⟩
  else
    match load_state env.file cfg.YEAR with
    | .error e => ⟨.error e, [], env.file⟩
    | .ok st =>
        let cur := currentPair st env
        let cur_num := cur.1
        let new_issue := st.last_number != some cur_num
        if !new_issue && !env.force_send then ⟨.ok (), [Eff.fetchLanding], env.file⟩
        else
          let fin := runLoop cfg env cur_num
          let effs := fin.effs ++
            (if !fin.files_local.isEmpty then
               Eff.smtpCall fin.files_local :: send_smtp cfg fin.files_local
             else [])
          if new_issue then
            let st2 : StateJ := { st with last_number := some cur_num, year := cfg.YEAR }
            ⟨.ok (), effs ++ [Eff.stateWrite st2], .content st2⟩
          else ⟨.ok (), effs, env.file⟩

/-- Effects that belong to the distribution phase (probe, render, Drive,
email); the landing fetch and the state write are excluded. -/
def isDistributionEff : Eff → Bool
  | .probe _ => true
  | .render _ _ => true
  | .driveClientInit => true
  | .driveFolderCheck => true
  | .uploadAttempt _ => true
  | .smtpCall _ => true
  | .emailSend _ => true
  | .fetchLanding => false
  | .stateWrite _ => false

/-- Effects the per-page loop can append. -/
def isLoopEff : Eff → Bool
  | .probe _ => true
  | .render _ _ => true
  | .driveClientInit => true
  | .driveFolderCheck => true
  | .uploadAttempt _ => true
  | _ => false

/-! Structural lemmas about the per-page loop. -/

theorem drivePhase_files_eq (cfg : Config) (env : Env) (nm : String) (acc : LoopSt) :
    (drivePhase cfg env nm acc).files_local = acc.files_local := by
  unfold drivePhase
  repeat' split <;> try rfl

theorem drivePhase_effs_mono (cfg : Config) (env : Env) (nm : String) (acc : LoopSt)
    (e : Eff) (h : e ∈ acc.effs) : e ∈ (drivePhase cfg env nm acc).effs := by
  by_cases hd : driveEnabled cfg
  · cases hm : acc.driveMemo with
    | none =>
        cases hcl : env.driveClient with
        | error e0 => simp [drivePhase, hd, hm, hcl, h]
        | ok u0 =>
            by_cases hfo : env.driveFolderOk
            · cases hup : upload_to_drive (env.upload nm) with
              | none => simp [drivePhase, hd, hm, hcl, hfo, hup, h]
              | some m => simp [drivePhase, hd, hm, hcl, hfo, hup, h]
            · simp [drivePhase, hd, hm, hcl, hfo, h]
    | some b =>
        cases b with
        | true =>
            cases hup : upload_to_drive (env.upload nm) with
            | none => simp [drivePhase, hd, hm, hup, h]
            | some m => simp [drivePhase, hd, hm, hup, h]
        | false => simpa [drivePhase, hd, hm] using h
  · simpa [drivePhase, hd] using h

theorem drivePhase_effs_new (cfg : Config) (env : Env) (nm : String) (acc : LoopSt)
    (e : Eff) (h : e ∈ (drivePhase cfg env nm acc).effs) :
    e ∈ acc.effs ∨ isLoopEff e = true := by
  by_cases hd : driveEnabled cfg
  · cases hm : acc.driveMemo with
    | none =>
        cases hcl : env.driveClient with
        | error e0 =>
            simp [drivePhase, hd, hm, hcl] at h
            rcases h with h | h
            · exact Or.inl h
            · subst h; exact Or.inr rfl
        | ok u0 =>
            by_cases hfo : env.driveFolderOk
            · cases hup : upload_to_drive (env.upload nm) with
              | none =>
                  simp [drivePhase, hd, hm, hcl, hfo, hup] at h
                  rcases h with h | h | h | h
                  · exact Or.inl h
                  · subst h; exact Or.inr rfl
                  · subst h; exact Or.inr rfl
                  · subst h; exact Or.inr rfl
              | some m =>
                  simp [drivePhase, hd, hm, hcl, hfo, hup] at h
                  rcases h with h | h | h | h
                  · exact Or.inl h
                  · subst h; exact Or.inr rfl
                  · subst h; exact Or.inr rfl
                  · subst h; exact Or.inr rfl
            · simp [drivePhase, hd, hm, hcl, hfo] at h
              rcases h with h | h | h
              · exact Or.inl h
              · subst h; exact Or.inr rfl
              · subst h; exact Or.inr rfl
    | some b =>
        cases b with
        | true =>
            cases hup : upload_to_drive (env.upload nm) with
            | none =>
                simp [drivePhase, hd, hm, hup] at h
                rcases h with h | h
                · exact Or.inl h
                · subst h; exact Or.inr rfl
            | some m =>
                simp [drivePhase, hd, hm, hup] at h
                rcases h with h | h
                · exact Or.inl h
                · subst h; exact Or.inr rfl
        | false =>
            simp [drivePhase, hd, hm] at h
            exact Or.inl h
  · simp [drivePhase, hd] at h
    exact Or.inl h

theorem processPage_effs_mono (cfg : Config) (env : Env) (cur : Int) (acc : LoopSt)
    (p : String) (e : Eff) (h : e ∈ acc.effs) :
    e ∈ (processPage cfg env cur acc p).effs := by
  cases hex : url_exists (env.probe (url_for cfg cur p)) with
  | false => simp [processPage, hex, h]
  | true =>
      cases hren : env.render (url_for cfg cur p) with
      | error e0 => simp [processPage, hex, hren, h]
      | ok u0 =>
          simp only [processPage, hex, hren, if_true]
          refine drivePhase_effs_mono _ _ _ _ _ ?_
          simp [h]

theorem processPage_probe_mem (cfg : Config) (env : Env) (cur : Int) (acc : LoopSt)
    (p : String) :
    Eff.probe (url_for cfg cur p) ∈ (processPage cfg env cur acc p).effs := by
  cases hex : url_exists (env.probe (url_for cfg cur p)) with
  | false => simp [processPage, hex]
  | true =>
      cases hren : env.render (url_for cfg cur p) with
      | error e0 => simp [processPage, hex, hren]
      | ok u0 =>
          simp only [processPage, hex, hren, if_true]
          refine drivePhase_effs_mono _ _ _ _ _ ?_
          simp

theorem processPage_effs_new (cfg : Config) (env : Env) (cur : Int) (acc : LoopSt)
    (p : String) (e : Eff) (h : e ∈ (processPage cfg env cur acc p).effs) :
    e ∈ acc.effs ∨ isLoopEff e = true := by
  cases hex : url_exists (env.probe (url_for cfg cur p)) with
  | false =>
      simp [processPage, hex] at h
      rcases h with h | h
      · exact Or.inl h
      · subst h; exact Or.inr rfl
  | true =>
      cases hren : env.render (url_for cfg cur p) with
      | error e0 =>
          simp [processPage, hex, hren] at h
          rcases h with h | h | h
          · exact Or.inl h
          · subst h; exact Or.inr rfl
          · subst h; exact Or.inr rfl
      | ok u0 =>
          simp only [processPage, hex, hren, if_true] at h
          rcases drivePhase_effs_new _ _ _ _ _ h with h | h
          · simp at h
            rcases h with h | h | h
            · exact Or.inl h
            · subst h; exact Or.inr rfl
            · subst h; exact Or.inr rfl
          · exact Or.inr h

theorem foldl_effs_mono (cfg : Config) (env : Env) (cur : Int) :
    ∀ (pages : List String) (acc : LoopSt) (e : Eff), e ∈ acc.effs →
      e ∈ (pages.foldl (processPage cfg env cur) acc).effs := by
  intro pages
  induction pages with
  | nil => intro acc e h; simpa using h
  | cons p ps ih =>
      intro acc e h
      exact ih (processPage cfg env cur acc p) e
        (processPage_effs_mono cfg env cur acc p e h)

theorem foldl_probe_mem (cfg : Config) (env : Env) (cur : Int) :
    ∀ (pages : List String) (acc : LoopSt) (p : String), p ∈ pages →
      Eff.probe (url_for cfg cur p) ∈ (pages.foldl (processPage cfg env cur) acc).effs := by
  intro pages
  induction pages with
  | nil => intro acc p hp; cases hp
  | cons q qs ih =>
      intro acc p hp
      rcases List.mem_cons.mp hp with h | h
      · subst h
        exact foldl_effs_mono cfg env cur qs _ _
          (processPage_probe_mem cfg env cur acc p)
      · exact ih (processPage cfg env cur acc q) p h

theorem foldl_effs_new (cfg : Config) (env : Env) (cur : Int) :
    ∀ (pages : List String) (acc : LoopSt) (e : Eff),
      e ∈ (pages.foldl (processPage cfg env cur) acc).effs →
      e ∈ acc.effs ∨ isLoopEff e = true := by
  intro pages
  induction pages with
  | nil => intro acc e h; exact Or.inl (by simpa using h)
  | cons p ps ih =>
      intro acc e h
      rcases ih (processPage cfg env cur acc p) e h with h2 | h2
      · exact processPage_effs_new cfg env cur acc p e h2
      · exact Or.inr h2

theorem processPage_files_frozen (cfg : Config) (env : Env) (cur : Int) (acc : LoopSt)
    (p : String)
    (h : (∀ u, env.probe u = .error ()) ∨ (∀ u, env.render u = .error ())) :
    (processPage cfg env cur acc p).files_local = acc.files_local := by
  rcases h with h | h
  · simp [processPage, h, url_exists]
  · cases hex : url_exists (env.probe (url_for cfg cur p)) with
    | false => simp [processPage, hex]
    | true => simp [processPage, hex, h]

theorem foldl_files_frozen (cfg : Config) (env : Env) (cur : Int)
    (h : (∀ u, env.probe u = .error ()) ∨ (∀ u, env.render u = .error ())) :
    ∀ (pages : List String) (acc : LoopSt),
      (pages.foldl (processPage cfg env cur) acc).files_local = acc.files_local := by
  intro pages
  induction pages with
  | nil => intro acc; rfl
  | cons p ps ih =>
      intro acc
      rw [List.foldl_cons, ih (processPage cfg env cur acc p),
        processPage_files_frozen cfg env cur acc p h]

theorem foldl_files_all_ok (cfg : Config) (env : Env) (cur : Int)
    (hpr : ∀ u, url_exists (env.probe u) = true)
    (hrd : ∀ u, env.render u = .ok ()) :
    ∀ (pages : List String) (acc : LoopSt),
      (pages.foldl (processPage cfg env cur) acc).files_local
        = acc.files_local ++ pages.map (outPath cfg cur) := by
  intro pages
  induction pages with
  | nil => intro acc; simp
  | cons p ps ih =>
      intro acc
      have hstep : (processPage cfg env cur acc p).files_local
          = acc.files_local ++ [outPath cfg cur p] := by
        simp [processPage, hpr, hrd, drivePhase_files_eq]
      rw [List.foldl_cons, ih (processPage cfg env cur acc p), hstep]
      simp

theorem drivePhase_uploaded_frozen (cfg : Config) (env : Env) (nm : String)
    (acc : LoopSt) (hupn : upload_to_drive (env.upload nm) = none) :
    (drivePhase cfg env nm acc).uploaded = acc.uploaded := by
  by_cases hd : driveEnabled cfg
  · cases hm : acc.driveMemo with
    | none =>
        cases hcl : env.driveClient with
        | error e0 => simp [drivePhase, hd, hm, hcl]
        | ok u0 =>
            by_cases hfo : env.driveFolderOk
            · simp [drivePhase, hd, hm, hcl, hfo, hupn]
            · simp [drivePhase, hd, hm, hcl, hfo]
    | some b =>
        cases b with
        | true => simp [drivePhase, hd, hm, hupn]
        | false => simp [drivePhase, hd, hm]
  · simp [drivePhase, hd]

theorem processPage_uploaded_frozen (cfg : Config) (env : Env) (cur : Int)
    (acc : LoopSt) (p : String)
    (hupn : ∀ nm, upload_to_drive (env.upload nm) = none) :
    (processPage cfg env cur acc p).uploaded = acc.uploaded := by
  cases hex : url_exists (env.probe (url_for cfg cur p)) with
  | false => simp [processPage, hex]
  | true =>
      cases hren : env.render (url_for cfg cur p) with
      | error e0 => simp [processPage, hex, hren]
      | ok u0 =>
          simp only [processPage, hex, hren, if_true]
          rw [drivePhase_uploaded_frozen cfg env _ _ (hupn _)]

theorem foldl_uploaded_frozen (cfg : Config) (env : Env) (cur : Int)
    (hupn : ∀ nm, upload_to_drive (env.upload nm) = none) :
    ∀ (pages : List String) (acc : LoopSt),
      (pages.foldl (processPage cfg env cur) acc).uploaded = acc.uploaded := by
  intro pages
  induction pages with
  | nil => intro acc; rfl
  | cons p ps ih =>
      intro acc
      rw [List.foldl_cons, ih (processPage cfg env cur acc p),
        processPage_uploaded_frozen cfg env cur acc p hupn]

/-! Reduction lemmas for the branches of `main`. -/

theorem main_new_issue_reduction (cfg : Config) (env : Env) (st : StateJ)
    (hw : (!env.in_window && !env.force_run) = false)
    (hload : load_state env.file cfg.YEAR = .ok st)
    (hni : (st.last_number != some (currentNum st env)) = true) :
    (main cfg env).result = .ok () ∧
    (main cfg env).trace =
      (runLoop cfg env (currentNum st env)).effs ++
        ((if !(runLoop cfg env (currentNum st env)).files_local.isEmpty then
           Eff.smtpCall (runLoop cfg env (currentNum st env)).files_local ::
             send_smtp cfg (runLoop cfg env (currentNum st env)).files_local
         else []) ++ [Eff.stateWrite ⟨some (currentNum st env), cfg.YEAR⟩]) ∧
    (main cfg env).file = .content ⟨some (currentNum st env), cfg.YEAR⟩ := by
  simp only [currentNum] at hni ⊢
  simp [main, hw, hload, hni]

theorem main_no_new_force_send_reduction (cfg : Config) (env : Env) (st : StateJ)
    (hw : (!env.in_window && !env.force_run) = false)
    (hload : load_state env.file cfg.YEAR = .ok st)
    (hni : (st.last_number != some (currentNum st env)) = false)
    (hfs : env.force_send = true) :
    (main cfg env).result = .ok () ∧
    (main cfg env).trace =
      (runLoop cfg env (currentNum st env)).effs ++
        (if !(runLoop cfg env (currentNum st env)).files_local.isEmpty then
           Eff.smtpCall (runLoop cfg env (currentNum st env)).files_local ::
             send_smtp cfg (runLoop cfg env (currentNum st env)).files_local
         else []) ∧
    (main cfg env).file = env.file := by
  simp only [currentNum] at hni ⊢
  simp [main, hw, hload, hni, hfs]

/-! Claim C6 -/

/-- C6: outside the 09:00-18:00 window and without the forced-run flag,
`main` returns right after the window check: the run succeeds trivially,
the effect trace is empty (no session use, no fetch, no probe, no
upload, no email), and the state file is untouched. -/
theorem c6_outside_window_no_work (cfg : Config) (env : Env)
    (hw : env.in_window = false) (hr : env.force_run = false) :
    (main cfg env).result = .ok () ∧ (main cfg env).trace = [] ∧
      (main cfg env).file = env.file := by
  simp [main, hw, hr]

def cfgC6w : Config := ⟨2025, false, "", "", false, "", "", []⟩

def envC6w : Env :=
  ⟨false, false, false, .missing, .error (), fun _ => .error (),
   fun _ => .error (), .error (), false, fun _ => .exc ""⟩

theorem c6_witness :
    (main cfgC6w envC6w).result = .ok () ∧ (main cfgC6w envC6w).trace = [] ∧
      (main cfgC6w envC6w).file = envC6w.file :=
  c6_outside_window_no_work cfgC6w envC6w rfl rfl

/-! Claim C7 -/

/-- C7: `url_exists` is true exactly for a GET status in `[200, 400)`;
any other status, and any raised exception, gives `false` (the function
is total: the exception never propagates). -/
theorem c7_url_exists_characterisation (code : Int) :
    (url_exists (.ok code) = true ↔ (200 ≤ code ∧ code < 400)) ∧
      url_exists (.error ()) = false := by
  constructor
  · simp [url_exists]
  · rfl

theorem c7_witness :
    url_exists (.ok 200) = true ∧ url_exists (.error ()) = false :=
  ⟨((c7_url_exists_characterisation 200).1).mpr (by decide),
   (c7_url_exists_characterisation 200).2⟩

/-! Claim C10 -/

/-- C10: `load_state` substitutes the default `{last_number: null, year: YEAR}`
exactly for a missing file (`FileNotFoundError`); a file that exists but
does not parse makes the exception propagate out of `main` (when the
window gate lets the run proceed), aborting before the landing fetch and
before any distribution, with the state file untouched. -/
theorem c10_malformed_state_aborts (cfg : Config) (env : Env) (y : Int)
    (hm : env.file = .malformed)
    (hg : (env.in_window || env.force_run) = true) :
    load_state .missing y = .ok ⟨none, y⟩ ∧
    load_state .malformed y = .error () ∧
    (main cfg env).result = .error () ∧
    (main cfg env).trace = [] ∧
    (main cfg env).file = env.file := by
  have hgate : (!env.in_window && !env.force_run) = false := by
    rw [← Bool.not_or, hg]; rfl
  refine ⟨rfl, rfl, ?_, ?_, ?_⟩ <;> simp [main, hgate, hm, load_state]

def cfgC10w : Config := ⟨2025, false, "", "", false, "", "", []⟩

def envC10w : Env :=
  ⟨false, false, true, .malformed, .error (), fun _ => .error (),
   fun _ => .error (), .error (), false, fun _ => .exc ""⟩

theorem c10_witness :
    load_state .missing 2025 = .ok ⟨none, 2025⟩ ∧
    load_state .malformed 2025 = .error () ∧
    (main cfgC10w envC10w).result = .error () ∧
    (main cfgC10w envC10w).trace = [] ∧
    (main cfgC10w envC10w).file = envC10w.file :=
  c10_malformed_state_aborts cfgC10w envC10w 2025 rfl rfl

/-! Claim C1 -/

/-- C1: when the fetched-and-parsed remote issue number equals the
persisted `last_number` and the forced-send flag is unset, `main`
performs no distribution effect at all (no sub-page probe, no render,
no Drive call, no upload, no email) and the state file is unchanged. -/
theorem c1_same_number_no_distribution (cfg : Config) (env : Env) (st : StateJ)
    (n : Int) (d : String) (html : String)
    (hf : env.file = .content st)
    (hh : env.fetchHtml = .ok html)
    (hp : parse_bur_number html = some (n, d))
    (hl : st.last_number = some n)
    (hs : env.force_send = false) :
    ((main cfg env).trace.all fun e => !isDistributionEff e) = true ∧
      (main cfg env).file = env.file := by
  cases hw : (!env.in_window && !env.force_run) with
  | true => simp [main, hw]
  | false =>
      have hcur : currentPair st env = (n, d) := by
        simp [currentPair, hh, hp]
      simp [main, hw, hf, load_state, hcur, hl, hs, isDistributionEff]

def cfgC1w : Config := ⟨2025, false, "", "", false, "", "", []⟩

def envC1w : Env :=
  ⟨false, false, true, .content ⟨some 35, 2025⟩,
   .ok "Bollettino Ufficiale n. 35 del 28 agosto 2025", fun _ => .error (),
   fun _ => .error (), .error (), false, fun _ => .exc ""⟩

theorem c1_witness :
    ((main cfgC1w envC1w).trace.all fun e => !isDistributionEff e) = true ∧
      (main cfgC1w envC1w).file = envC1w.file :=
  c1_same_number_no_distribution cfgC1w envC1w ⟨some 35, 2025⟩ 35
    "28 agosto 2025" "Bollettino Ufficiale n. 35 del 28 agosto 2025"
    rfl rfl (by decide) rfl rfl

/-! Claim C4 -/

/-- C4, counterexample to the claim as stated: the claim quantifies over
every string CONTAINING `"Bollettino Ufficiale n. 35 del 28 agosto 2025"`,
but `re.search` takes the leftmost match, so a string that also contains
an earlier occurrence of the primary pattern parses to that earlier
occurrence, not to `(35, "28 agosto 2025")`. -/
theorem c4_counterexample :
    containsSub "Bollettino Ufficiale n. 35 del 28 agosto 2025".toList
        ("Bollettino Ufficiale n. 1 del 9 maggio 2024 e Bollettino Ufficiale n. 35 del 28 agosto 2025").toList
      = true ∧
    parse_bur_number
        "Bollettino Ufficiale n. 1 del 9 maggio 2024 e Bollettino Ufficiale n. 35 del 28 agosto 2025"
      = some (1, "9 maggio 2024") := by
  constructor
  · decide
  · decide

/-- C4, amended: on the exact string
`"Bollettino Ufficiale n. 35 del 28 agosto 2025"` the primary pattern
yields `(35, "28 agosto 2025")`; on the exact string
`"Bollettino n° 35 del 28 agosto 2025"` the primary pattern does not
match and the fallback pattern yields the same pair; and whenever
neither pattern matches anywhere in the input, `parse_bur_number`
raises the extraction error (modelled as `none`). -/
theorem c4_regex_extraction :
    parse_bur_number "Bollettino Ufficiale n. 35 del 28 agosto 2025"
      = some (35, "28 agosto 2025") ∧
    searchFrom matchPrimAt ("Bollettino n° 35 del 28 agosto 2025").toList = none ∧
    parse_bur_number "Bollettino n° 35 del 28 agosto 2025"
      = some (35, "28 agosto 2025") ∧
    ∀ html : String, searchFrom matchPrimAt html.toList = none →
      searchFrom matchFallAt html.toList = none →
      parse_bur_number html = none := by
  refine ⟨by decide, by decide, by decide, ?_⟩
  intro html h1 h2
  simp only [String.toList] at h1 h2
  simp [parse_bur_number, h1, h2]

theorem c4_witness : parse_bur_number "no match here" = none :=
  c4_regex_extraction.2.2.2 "no match here" (by decide) (by decide)

/-! Claim C3 -/

/-- C3, counterexample to the claim as stated: the claim says the
fetch-failure fallback can never produce a new-issue detection
"whatever the persisted state contains (including a null last_number)".
With a null persisted `last_number` and a failed fetch, the fallback
`st.get("last_number") or 0` yields `0`, `None != 0` holds, so the run
does enter the distribution phase (the first sub-page probe appears in
the trace) and even persists `last_number = 0`. -/
def cfgC3x : Config := ⟨2025, false, "", "", false, "", "", []⟩

def envC3x : Env :=
  ⟨false, false, true, .content ⟨none, 2025⟩, .error (), fun _ => .error (),
   fun _ => .error (), .error (), false, fun _ => .exc ""⟩

theorem c3_counterexample :
    envC3x.fetchHtml = .error () ∧
    envC3x.file = .content ⟨none, 2025⟩ ∧
    Eff.probe (url_for cfgC3x 0 "siste") ∈ (main cfgC3x envC3x).trace ∧
    (main cfgC3x envC3x).file = .content ⟨some 0, 2025⟩ := by
  refine ⟨rfl, rfl, ?_, ?_⟩ <;> decide

/-- C3, amended: on a fetch or parse failure `main` falls back to the
persisted `last_number` (with an empty date) and continues the run, and
when that persisted `last_number` is non-null (and the forced-send flag
is unset) the fallback cannot produce a new-issue detection: the run
performs no distribution effect and leaves the state file unchanged.
(With a null `last_number` the fallback is `0` and a detection occurs,
see the counterexample.) -/
theorem c3_fetch_failure_fallback (cfg : Config) (env : Env) (st : StateJ)
    (k : Int)
    (hf : env.file = .content st)
    (hk : st.last_number = some k)
    (he : env.fetchHtml = .error ())
    (hs : env.force_send = false) :
    (main cfg env).result = .ok () ∧
    currentPair st env = (k, "") ∧
    ((main cfg env).trace.all fun e => !isDistributionEff e) = true ∧
    (main cfg env).file = env.file := by
  have hcur : currentPair st env = (k, "") := by
    by_cases hk0 : k = 0
    · subst hk0; simp [currentPair, he, hk]
    · simp [currentPair, he, hk, hk0]
  cases hw : (!env.in_window && !env.force_run) with
  | true => simp [main, hw, hcur]
  | false =>
      simp [main, hw, hf, load_state, hcur, hk, hs, isDistributionEff]

def cfgC3w : Config := ⟨2025, false, "", "", false, "", "", []⟩

def envC3w : Env :=
  ⟨false, false, true, .content ⟨some 7, 2025⟩, .error (), fun _ => .error (),
   fun _ => .error (), .error (), false, fun _ => .exc ""⟩

theorem c3_witness :
    (main cfgC3w envC3w).result = .ok () ∧
    currentPair ⟨some 7, 2025⟩ envC3w = (7, "") ∧
    ((main cfgC3w envC3w).trace.all fun e => !isDistributionEff e) = true ∧
    (main cfgC3w envC3w).file = envC3w.file :=
  c3_fetch_failure_fallback cfgC3w envC3w ⟨some 7, 2025⟩ 7 rfl rfl rfl rfl

/-! Claim C5 -/

/-- C5: with the forced-send flag set and the remote number equal to the
persisted `last_number`, `main` re-runs the probe/render/distribute
sequence (every sub-page is probed) but never writes the state file, so
the persisted state is unchanged. -/
theorem c5_force_send_no_state_mutation (cfg : Config) (env : Env) (st : StateJ)
    (n : Int) (d : String) (html : String)
    (hf : env.file = .content st)
    (hh : env.fetchHtml = .ok html)
    (hp : parse_bur_number html = some (n, d))
    (hl : st.last_number = some n)
    (hfs : env.force_send = true)
    (hw : env.in_window = true) :
    (∀ p ∈ PAGES, Eff.probe (url_for cfg n p) ∈ (main cfg env).trace) ∧
    (∀ s2 : StateJ, Eff.stateWrite s2 ∉ (main cfg env).trace) ∧
    (main cfg env).file = env.file := by
  have hgate : (!env.in_window && !env.force_run) = false := by simp [hw]
  have hload : load_state env.file cfg.YEAR = .ok st := by simp [hf, load_state]
  have hcur : currentNum st env = n := by
    simp [currentNum, currentPair, hh, hp]
  have hni : (st.last_number != some (currentNum st env)) = false := by
    rw [hcur, hl]; simp
  obtain ⟨hres, htr, hfile⟩ :=
    main_no_new_force_send_reduction cfg env st hgate hload hni hfs
  refine ⟨?_, ?_, hfile⟩
  · intro p hpmem
    rw [htr, hcur]
    exact List.mem_append_left _
      (by simpa [runLoop, hcur] using
        foldl_probe_mem cfg env n PAGES ⟨[], [], none, [Eff.fetchLanding]⟩ p hpmem)
  · intro s2 hmem
    rw [htr] at hmem
    rcases List.mem_append.mp hmem with hmem | hmem
    · rcases foldl_effs_new cfg env _ PAGES _ _ (by simpa [runLoop] using hmem)
        with h2 | h2
      · simp at h2
      · simp [isLoopEff] at h2
    · revert hmem
      split
      · intro hmem
        rcases List.mem_cons.mp hmem with h3 | h3
        · simp at h3
        · revert h3
          unfold send_smtp
          split <;> simp
      · intro hmem
        cases hmem

def cfgC5w : Config := ⟨2025, false, "", "", false, "", "", []⟩

def envC5w : Env :=
  ⟨false, true, true, .content ⟨some 35, 2025⟩,
   .ok "Bollettino Ufficiale n. 35 del 28 agosto 2025", fun _ => .error (),
   fun _ => .error (), .error (), false, fun _ => .exc ""⟩

theorem c5_witness :
    (∀ p ∈ PAGES, Eff.probe (url_for cfgC5w 35 p) ∈ (main cfgC5w envC5w).trace) ∧
    (∀ s2 : StateJ, Eff.stateWrite s2 ∉ (main cfgC5w envC5w).trace) ∧
    (main cfgC5w envC5w).file = envC5w.file :=
  c5_force_send_no_state_mutation cfgC5w envC5w ⟨some 35, 2025⟩ 35
    "28 agosto 2025" "Bollettino Ufficiale n. 35 del 28 agosto 2025"
    rfl rfl (by decide) rfl rfl rfl

/-! Claim C9 -/

/-- C9: when a new issue is detected but no sub-page yields a PDF (every
probe fails, or every render raises), `send_smtp` is never invoked and
no email send happens, yet the state file is still written with
`last_number` set to the detected number — so that issue will not be
re-attempted by later runs. -/
theorem c9_no_pdf_state_still_written (cfg : Config) (env : Env) (st : StateJ)
    (n : Int) (d : String) (html : String)
    (hf : env.file = .content st)
    (hh : env.fetchHtml = .ok html)
    (hp : parse_bur_number html = some (n, d))
    (hne : st.last_number ≠ some n)
    (hw : env.in_window = true)
    (hnone : (∀ u, env.probe u = .error ()) ∨ (∀ u, env.render u = .error ())) :
    (∀ fs, Eff.smtpCall fs ∉ (main cfg env).trace) ∧
    (∀ fs, Eff.emailSend fs ∉ (main cfg env).trace) ∧
    (main cfg env).file = .content ⟨some n, cfg.YEAR⟩ := by
  have hgate : (!env.in_window && !env.force_run) = false := by simp [hw]
  have hload : load_state env.file cfg.YEAR = .ok st := by simp [hf, load_state]
  have hcur : currentNum st env = n := by
    simp [currentNum, currentPair, hh, hp]
  have hni : (st.last_number != some (currentNum st env)) = true := by
    rw [hcur]; simp [hne]
  obtain ⟨hres, htr, hfile⟩ := main_new_issue_reduction cfg env st hgate hload hni
  have hempty : (runLoop cfg env (currentNum st env)).files_local = [] := by
    simpa [runLoop] using
      foldl_files_frozen cfg env (currentNum st env) hnone PAGES
        ⟨[], [], none, [Eff.fetchLanding]⟩
  rw [hempty] at htr
  simp only [List.isEmpty_nil, Bool.not_true, Bool.false_eq_true, if_false,
    List.nil_append] at htr
  refine ⟨?_, ?_, ?_⟩
  · intro fs hmem
    rw [htr] at hmem
    rcases List.mem_append.mp hmem with hmem | hmem
    · rcases foldl_effs_new cfg env _ PAGES _ _ (by simpa [runLoop] using hmem)
        with h2 | h2
      · simp at h2
      · simp [isLoopEff] at h2
    · simp at hmem
  · intro fs hmem
    rw [htr] at hmem
    rcases List.mem_append.mp hmem with hmem | hmem
    · rcases foldl_effs_new cfg env _ PAGES _ _ (by simpa [runLoop] using hmem)
        with h2 | h2
      · simp at h2
      · simp [isLoopEff] at h2
    · simp at hmem
  · rw [hfile, hcur]

def cfgC9w : Config := ⟨2025, false, "", "", false, "", "", []⟩

def envC9w : Env :=
  ⟨false, false, true, .content ⟨some 1, 2025⟩,
   .ok "Bollettino Ufficiale n. 35 del 28 agosto 2025", fun _ => .error (),
   fun _ => .error (), .error (), false, fun _ => .exc ""⟩

theorem c9_witness :
    (∀ fs, Eff.smtpCall fs ∉ (main cfgC9w envC9w).trace) ∧
    (∀ fs, Eff.emailSend fs ∉ (main cfgC9w envC9w).trace) ∧
    (main cfgC9w envC9w).file = .content ⟨some 35, 2025⟩ :=
  c9_no_pdf_state_still_written cfgC9w envC9w ⟨some 1, 2025⟩ 35
    "28 agosto 2025" "Bollettino Ufficiale n. 35 del 28 agosto 2025"
    rfl rfl (by decide) (by decide) rfl (Or.inl fun u => rfl)

/-! Claim C2 -/

/-- C2, counterexample to the claim as stated: in a run whose fetch
fails while the persisted `last_number` is null, no issue number is
observed on the remote landing page at all, yet the persisted
`last_number` changes (null becomes 0) because the fallback
`st.get("last_number") or 0` is compared against the null state. -/
def cfgC2x : Config := ⟨2024, false, "", "", false, "", "", []⟩

def envC2x : Env :=
  ⟨false, false, true, .content ⟨none, 2024⟩, .error (), fun _ => .error (),
   fun _ => .error (), .error (), false, fun _ => .exc ""⟩

theorem c2_counterexample :
    envC2x.fetchHtml = .error () ∧
    envC2x.file = .content ⟨none, 2024⟩ ∧
    (main cfgC2x envC2x).file = .content ⟨some 0, 2024⟩ ∧
    (main cfgC2x envC2x).file ≠ envC2x.file := by
  refine ⟨rfl, rfl, ?_, ?_⟩ <;> decide

/-- C2, amended: the persisted `last_number` changes only when the
computed current number of the run — the remotely parsed number when the fetch
succeeded, otherwise the persisted-number-or-0 fallback — differs from
the persisted `last_number`, and in that case the distribution phase was
entered (the first sub-page probe is in the trace) and the file now
holds exactly that computed number. -/
theorem c2_state_change_characterised (cfg : Config) (env : Env)
    (hch : (main cfg env).file ≠ env.file) :
    ∃ st : StateJ, load_state env.file cfg.YEAR = .ok st ∧
      (st.last_number != some (currentNum st env)) = true ∧
      (main cfg env).file = .content ⟨some (currentNum st env), cfg.YEAR⟩ ∧
      Eff.probe (url_for cfg (currentNum st env) "siste") ∈ (main cfg env).trace := by
  cases hw : (!env.in_window && !env.force_run) with
  | true => exact absurd (by simp [main, hw]) hch
  | false =>
      cases hload : load_state env.file cfg.YEAR with
      | error e0 => exact absurd (by simp [main, hw, hload]) hch
      | ok st =>
          cases hni : (st.last_number != some (currentNum st env)) with
          | false =>
              cases hfs : env.force_send with
              | false =>
                  refine absurd ?_ hch
                  simp only [currentNum] at hni
                  simp [main, hw, hload, hni, hfs]
              | true =>
                  obtain ⟨_, _, hfile⟩ :=
                    main_no_new_force_send_reduction cfg env st hw hload hni hfs
                  exact absurd hfile hch
          | true =>
              obtain ⟨hres, htr, hfile⟩ :=
                main_new_issue_reduction cfg env st hw hload hni
              refine ⟨st, rfl, hni, hfile, ?_⟩
              rw [htr]
              refine List.mem_append_left _ ?_
              have hm := foldl_probe_mem cfg env (currentNum st env) PAGES
                  ⟨[], [], none, [Eff.fetchLanding]⟩ "siste" (by simp [PAGES])
              simpa [runLoop] using hm

def cfgC2w : Config := ⟨2025, false, "", "", false, "", "", []⟩

def envC2w : Env :=
  ⟨false, false, true, .content ⟨some 1, 2025⟩,
   .ok "Bollettino Ufficiale n. 35 del 28 agosto 2025", fun _ => .error (),
   fun _ => .error (), .error (), false, fun _ => .exc ""⟩

theorem c2_witness :
    ∃ st : StateJ, load_state envC2w.file cfgC2w.YEAR = .ok st ∧
      (st.last_number != some (currentNum st envC2w)) = true ∧
      (main cfgC2w envC2w).file = .content ⟨some (currentNum st envC2w), cfgC2w.YEAR⟩ ∧
      Eff.probe (url_for cfgC2w (currentNum st envC2w) "siste")
        ∈ (main cfgC2w envC2w).trace :=
  c2_state_change_characterised cfgC2w envC2w (by decide)

/-! Claim C8 -/

/-- C8: when every Drive upload fails for lack of service-account
storage quota, `upload_to_drive` swallows the exception and returns
`None`; in such a run the already-rendered local PDFs all stay in
`files_local` (one per sub-page), nothing is recorded as uploaded, the
upload was genuinely attempted, and the email send is still invoked and
performed with exactly those PDFs attached. -/
theorem c8_quota_failure_tolerated (cfg : Config) (env : Env) (st : StateJ)
    (n : Int) (d : String) (html : String)
    (hf : env.file = .content st)
    (hh : env.fetchHtml = .ok html)
    (hp : parse_bur_number html = some (n, d))
    (hne : st.last_number ≠ some n)
    (hw : env.in_window = true)
    (hdrv : driveEnabled cfg = true)
    (hcli : env.driveClient = .ok ())
    (hfo : env.driveFolderOk = true)
    (hpr : ∀ u, url_exists (env.probe u) = true)
    (hrd : ∀ u, env.render u = .ok ())
    (hup : ∀ nm, ∃ m, env.upload nm = .exc m ∧
             containsSub quotaMsg.toList m.toList = true)
    (hsm : smtpConfigured cfg = true) :
    (∀ m, containsSub quotaMsg.toList m.toList = true →
        upload_to_drive (.exc m) = none) ∧
    (runLoop cfg env n).files_local = PAGES.map (outPath cfg n) ∧
    (runLoop cfg env n).uploaded = [] ∧
    Eff.uploadAttempt (outName cfg n "siste") ∈ (main cfg env).trace ∧
    Eff.smtpCall (PAGES.map (outPath cfg n)) ∈ (main cfg env).trace ∧
    Eff.emailSend (PAGES.map (outPath cfg n)) ∈ (main cfg env).trace := by
  have hupn : ∀ nm, upload_to_drive (env.upload nm) = none := by
    intro nm
    obtain ⟨m, hm, hq⟩ := hup nm
    rw [hm]
    simp [upload_to_drive]
  have hgate : (!env.in_window && !env.force_run) = false := by simp [hw]
  have hload : load_state env.file cfg.YEAR = .ok st := by simp [hf, load_state]
  have hcur : currentNum st env = n := by
    simp [currentNum, currentPair, hh, hp]
  have hni : (st.last_number != some (currentNum st env)) = true := by
    rw [hcur]; simp [hne]
  obtain ⟨hres, htr, hfile⟩ := main_new_issue_reduction cfg env st hgate hload hni
  rw [hcur] at htr
  have hfiles : (runLoop cfg env n).files_local = PAGES.map (outPath cfg n) := by
    have h0 := foldl_files_all_ok cfg env n hpr hrd PAGES
        ⟨[], [], none, [Eff.fetchLanding]⟩
    simpa [runLoop] using h0
  have hupl : (runLoop cfg env n).uploaded = [] := by
    have h0 := foldl_uploaded_frozen cfg env n hupn PAGES
        ⟨[], [], none, [Eff.fetchLanding]⟩
    simpa [runLoop] using h0
  have hif : (if !(runLoop cfg env n).files_local.isEmpty then
        Eff.smtpCall (runLoop cfg env n).files_local ::
          send_smtp cfg (runLoop cfg env n).files_local
      else [])
      = Eff.smtpCall (PAGES.map (outPath cfg n)) ::
          send_smtp cfg (PAGES.map (outPath cfg n)) := by
    rw [hfiles]
    simp [PAGES]
  rw [hif] at htr
  have hatt : Eff.uploadAttempt (outName cfg n "siste")
      ∈ (runLoop cfg env n).effs := by
    have h1 : Eff.uploadAttempt (outName cfg n "siste")
        ∈ (processPage cfg env n ⟨[], [], none, [Eff.fetchLanding]⟩ "siste").effs := by
      simp [processPage, hpr, hrd, drivePhase, hdrv, hcli, hfo, hupn]
    have h2 : runLoop cfg env n =
        List.foldl (processPage cfg env n)
          (processPage cfg env n ⟨[], [], none, [Eff.fetchLanding]⟩ "siste")
          ["suppo1", "suppo2", "suppo3"] := rfl
    rw [h2]
    exact foldl_effs_mono cfg env n _ _ _ h1
  refine ⟨fun m hqm => by simp [upload_to_drive], hfiles, hupl, ?_, ?_, ?_⟩
  · rw [htr]
    exact List.mem_append_left _ hatt
  · rw [htr]
    refine List.mem_append_right _ (List.mem_append_left _ ?_)
    exact List.mem_cons_self _ _
  · rw [htr]
    refine List.mem_append_right _ (List.mem_append_left _ ?_)
    refine List.mem_cons_of_mem _ ?_
    simp [send_smtp, hsm]

def cfgC8w : Config := ⟨2025, true, "folder-id", "sa-json", true, "user", "pass", ["a@b.it"]⟩

def envC8w : Env :=
  ⟨false, false, true, .content ⟨some 1, 2025⟩,
   .ok "Bollettino Ufficiale n. 35 del 28 agosto 2025", fun _ => .ok 200,
   fun _ => .ok (), .ok (), true, fun _ => .exc quotaMsg⟩

theorem c8_witness :
    (∀ m, containsSub quotaMsg.toList m.toList = true →
        upload_to_drive (.exc m) = none) ∧
    (runLoop cfgC8w envC8w 35).files_local = PAGES.map (outPath cfgC8w 35) ∧
    (runLoop cfgC8w envC8w 35).uploaded = [] ∧
    Eff.uploadAttempt (outName cfgC8w 35 "siste") ∈ (main cfgC8w envC8w).trace ∧
    Eff.smtpCall (PAGES.map (outPath cfgC8w 35)) ∈ (main cfgC8w envC8w).trace ∧
    Eff.emailSend (PAGES.map (outPath cfgC8w 35)) ∈ (main cfgC8w envC8w).trace :=
  c8_quota_failure_tolerated cfgC8w envC8w ⟨some 1, 2025⟩ 35
    "28 agosto 2025" "Bollettino Ufficiale n. 35 del 28 agosto 2025"
    rfl rfl (by decide) (by decide) rfl (by decide) rfl rfl
    (fun u => rfl) (fun u => rfl)
    (fun nm => ⟨quotaMsg, rfl, by decide⟩) (by decide)

end BUR
